import Mathlib

/-!
Verification development for `thinc/loss.py` (loss kernels: categorical
cross-entropy, sequence categorical cross-entropy, squared L2 distance,
cosine distance).

Modelling conventions (shallow embedding):
* A dense 2-d float array (`Floats2d`) is a list of rows.  Float arithmetic
  is idealised as exact arithmetic: rationals (`ℚ`) for the kernels that use
  only field operations, reals (`ℝ`) for the cosine kernel, whose row norms
  need `Real.sqrt`.
* Python exceptions are an explicit error type: the kernels raise
  `ValueError msg` at each `raise ValueError(...)` site, and a failed
  dictionary subscript `self._name_to_i[name]` raises `KeyError key`.
* numpy's `arr.any()` is `npAny` (true iff some element is nonzero); in the
  source this bool is then compared with the integers 1 and 0, which is
  embedded faithfully (`pyBoolInt`).
* `to_categorical` lives in `thinc/util.py`, which is not part of the
  sources provided; it is modelled from the spec (see its doc comment).
-/

/-- A dense 2-d float tensor, one list per row (rational model). -/
abbrev Floats2d := List (List ℚ)

/-- numpy `.shape` of a 2-d array: (number of rows, row width).  numpy
arrays are rectangular, so the width of the first row is the width of
every row; theorems that need rectangularity state it via `Rect`. -/
def shape2 (m : Floats2d) : Nat × Nat := (m.length, (m.headD []).length)

/-- `guesses.shape[-1]`: the number of columns of a 2-d array. -/
def nCols (m : Floats2d) : Nat := (m.headD []).length

/-- Rectangularity invariant of a numpy 2-d array: every row has the
common width. -/
def Rect (m : Floats2d) : Prop := ∀ r ∈ m, r.length = nCols m

instance : DecidablePred Rect := fun m =>
  inferInstanceAs (Decidable (∀ r ∈ m, r.length = nCols m))

/-- numpy `arr.any()`: true iff some element is truthy (nonzero). -/
def npAny (m : Floats2d) : Bool := m.any (fun r => r.any (fun x => decide (x ≠ 0)))

/-- Python coerces a bool to an int when comparing it to an int:
`True` is 1, `False` is 0. -/
def pyBoolInt (b : Bool) : Int := if b then 1 else 0

/-- The condition of the range check in `CategoricalCrossentropy.get_grad`,
exactly as written in the source: `arr.any() > 1 or arr.any() < 0`.
(`arr.any()` is a bool, so the comparison is against the ints 1 / 0.) -/
def rangeCheckFires (m : Floats2d) : Bool :=
  decide (pyBoolInt (npAny m) > 1) || decide (pyBoolInt (npAny m) < 0)

/-- `guesses - target`, elementwise. -/
def matSub (a b : Floats2d) : Floats2d :=
  List.zipWith (fun r s => List.zipWith (fun x y => x - y) r s) a b

/-- Elementwise product of two 2-d arrays (`difference *= (1 - mask)` uses
this after taking `1 - mask`). -/
def hadamard (a b : Floats2d) : Floats2d :=
  List.zipWith (fun r s => List.zipWith (fun x y => x * y) r s) a b

/-- `1 - mask`, elementwise (broadcast of the scalar 1). -/
def oneMinus (m : Floats2d) : Floats2d := m.map (fun r => r.map (fun x => 1 - x))

/-- `arr / n`: divide every element by a batch size. -/
def divByNat (m : Floats2d) (n : Nat) : Floats2d :=
  m.map (fun r => r.map (fun x => x / (n : ℚ)))

/-- `if self.normalize: difference = difference / guesses.shape[0]`. -/
def applyNormalize (normalize : Bool) (n : Nat) (m : Floats2d) : Floats2d :=
  if normalize then divByNat m n else m

/-- `(d_truth ** 2).sum()`: the sum of the squares of all elements. -/
def sumSq (m : Floats2d) : ℚ :=
  (m.map (fun r => (r.map (fun x => x * x)).sum)).sum

/-- Python exceptions raised by the loss module: every `raise ValueError(msg)`
site, plus the `KeyError` a failed dict subscript raises. -/
inductive PyError
  | valueError (msg : String)
  | keyError (key : String)
  deriving DecidableEq, Repr

/-- Discriminator: is this exception a `ValueError`? -/
def isValueError : PyError → Bool
  | .valueError _ => true
  | .keyError _ => false

def ccShapeMsg : String :=
  "Cannot calculate CategoricalCrossentropy loss: mismatched shapes."

def ccRangeGuessMsg : String :=
  "Cannot calculate CategoricalCrossentropy loss with guesses outside the [0,1] interval."

def ccRangeTruthMsg : String :=
  "Cannot calculate CategoricalCrossentropy loss with truth values outside the [0,1] interval."

def noNamesMsg : String :=
  "Cannot calculate loss from list of strings without names."

def asarrayMsg : String :=
  "invalid literal for int conversion in asarray with dtype i"

def seqLenMsg : String :=
  "Cannot calculate SequenceCategoricalCrossentropy loss: guesses and truths must be same length"

def l2ShapeMsg : String :=
  "Cannot calculate L2 distance: mismatched shapes."

def cosShapeMsg : String :=
  "Cannot calculate cosine similarity: mismatched shapes."

/-- An element of a Python `list` supplied as truths: an int or a string. -/
inductive PyItem
  | int (n : Nat)
  | str (s : String)
  deriving DecidableEq, Repr

/-- The truth representations `CategoricalCrossentropy` accepts:
a Python list (of ints or strings), a 1-d int array, or a dense
2-d float array. -/
inductive Truths
  | pylist (l : List PyItem)
  | ints1d (l : List Nat)
  | dense (m : Floats2d)
  deriving DecidableEq, Repr

/-- The `missing` argument: either a dense float mask (dtype `"f"`) or an
integer index array (`mask[missing] = 1` sets the selected rows to 1). -/
inductive Missing
  | floats (m : Floats2d)
  | indices (idxs : List Nat)
  deriving DecidableEq, Repr

/-- `len(truths) and isinstance(truths[0], str)`: the Python list is
treated as string labels only when it is non-empty and its first element
is a string. -/
def isStrHead : List PyItem → Bool
  | [] => false
  | .str _ :: _ => true
  | .int _ :: _ => false

/-- `{name: i for i, name in enumerate(names)}`: the resulting dict maps a
name to its index; a duplicated name keeps the last index (dict overwrite). -/
def nameToITable (names : List String) : List (String × Nat) :=
  names.enum.map (fun p => (p.2, p.1))

/-- Dict subscript: the value for the key, where a later insertion for the
same key overwrote an earlier one (hence `getLast?`); `none` means the
subscript raises `KeyError`. -/
def dictLookup (d : List (String × Nat)) (s : String) : Option Nat :=
  ((d.filter (fun p => p.1 == s)).getLast?).map (fun p => p.2)

/-- `[self._name_to_i[name] for name in truths]`: resolves left to right and
raises `KeyError` at the first name missing from the table.  A non-string
item in a string-headed list is likewise subscripted into the dict and is
not a key of it. -/
def resolveNames (table : List (String × Nat)) : List PyItem → Except PyError (List Nat)
  | [] => .ok []
  | .str s :: rest =>
    match dictLookup table s with
    | some i => (resolveNames table rest).map (fun idxs => i :: idxs)
    | none => .error (.keyError s)
  | .int n :: rest =>
    match dictLookup table (toString n) with
    | some i => (resolveNames table rest).map (fun idxs => i :: idxs)
    | none => .error (.keyError (toString n))

/-- `xp.asarray(truths, dtype="i")` on an int-headed Python list: the items
must all be ints (numpy raises on a string item). -/
def asIntList : List PyItem → Except PyError (List Nat)
  | [] => .ok []
  | .int n :: rest => (asIntList rest).map (fun l => n :: l)
  | .str _ :: _ => .error (.valueError asarrayMsg)

/-- One row of a one-hot expansion: 1.0 at the label's position, 0.0
elsewhere. -/
def oneHotRow (n_classes i : Nat) : List ℚ :=
  (List.range n_classes).map (fun j => if j = i then 1 else 0)

/-- Modelled from the spec: `to_categorical` (defined in `thinc/util.py`,
which is not among the provided sources) expands a 1-d array of integer
class labels to dense one-hot form with width `n_classes`; index `i` maps
to a unit vector with 1.0 at position `i`, 0.0 elsewhere. -/
def to_categorical (labels : List Nat) (n_classes : Nat) : Floats2d :=
  labels.map (fun i => oneHotRow n_classes i)

/-- `CategoricalCrossentropy.__init__` stores `normalize` and `names`;
`_name_to_i` is derived from `names` once at construction (see
`CategoricalCrossentropy._name_to_i`). -/
structure CategoricalCrossentropy where
  normalize : Bool
  names : Option (List String)
  deriving DecidableEq, Repr

/-- The `_name_to_i` attribute built in `__init__`: the name-to-index dict
when `names` was given, `None` otherwise.  It is a pure function of the
construction-time `names` and is never reassigned. -/
def CategoricalCrossentropy._name_to_i (self : CategoricalCrossentropy) :
    Option (List (String × Nat)) :=
  self.names.map nameToITable

/-- `CategoricalCrossentropy.convert_truths`. -/
def CategoricalCrossentropy.convert_truths (self : CategoricalCrossentropy)
    (truths : Truths) (guesses : Floats2d) : Except PyError Floats2d :=
  let n_classes := nCols guesses
  match truths with
  | .pylist l =>
    let idxs : Except PyError (List Nat) :=
      if isStrHead l then
        match self.names with
        | none => .error (.valueError noNamesMsg)
        | some ns => resolveNames (nameToITable ns) l
      else asIntList l
    match idxs with
    | .error e => .error e
    | .ok labels =>
      -- the int array has ndim 1 != guesses.ndim 2: one-hot expand
      .ok (to_categorical labels n_classes)
  | .ints1d l =>
    -- ndim 1 != guesses.ndim 2: one-hot expand
    .ok (to_categorical l n_classes)
  | .dense m =>
    -- truths.ndim == guesses.ndim: pass through unchanged
    .ok m

/-- `_make_mask`: a float mask (dtype `"f"`) is returned as-is; otherwise a
zero array of `shape` is built and `mask[missing] = 1` sets the selected
rows to 1. -/
def _make_mask (missing : Missing) (shape : Nat × Nat) : Floats2d :=
  match missing with
  | .floats m => m
  | .indices idxs =>
    (List.range shape.1).map (fun i =>
      (List.range shape.2).map (fun _ => if i ∈ idxs then (1 : ℚ) else 0))

/-- `CategoricalCrossentropy.get_grad`. -/
def CategoricalCrossentropy.get_grad (self : CategoricalCrossentropy)
    (guesses : Floats2d) (truths : Truths) (missing : Option Missing) :
    Except PyError Floats2d :=
  match self.convert_truths truths guesses with
  | .error e => .error e
  | .ok target =>
    if shape2 guesses ≠ shape2 target then
      .error (.valueError ccShapeMsg)
    else if rangeCheckFires guesses then
      .error (.valueError ccRangeGuessMsg)
    else if rangeCheckFires target then
      .error (.valueError ccRangeTruthMsg)
    else
      let difference := matSub guesses target
      let difference :=
        match missing with
        | some miss => hadamard difference (oneMinus (_make_mask miss (shape2 guesses)))
        | none => difference
      .ok (applyNormalize self.normalize guesses.length difference)

/-- `CategoricalCrossentropy._get_loss_from_grad`: `(d_truth ** 2).sum()`. -/
def _get_loss_from_grad (d_truth : Floats2d) : ℚ := sumSq d_truth

/-- `CategoricalCrossentropy.get_loss`: computes the gradient and sums its
squares. -/
def CategoricalCrossentropy.get_loss (self : CategoricalCrossentropy)
    (guesses : Floats2d) (truths : Truths) (missing : Option Missing) :
    Except PyError ℚ :=
  (self.get_grad guesses truths missing).map _get_loss_from_grad

/-- `CategoricalCrossentropy.__call__`: one gradient evaluation, loss
derived from it. -/
def CategoricalCrossentropy.call (self : CategoricalCrossentropy)
    (guesses : Floats2d) (truths : Truths) (missing : Option Missing) :
    Except PyError (Floats2d × ℚ) :=
  match self.get_grad guesses truths missing with
  | .error e => .error e
  | .ok d_truth => .ok (d_truth, _get_loss_from_grad d_truth)

/-- `SequenceCategoricalCrossentropy.__init__` wraps an inner
`CategoricalCrossentropy` built from the same options. -/
structure SequenceCategoricalCrossentropy where
  cc : CategoricalCrossentropy
  deriving DecidableEq, Repr

/-- The per-step gradient loop of `SequenceCategoricalCrossentropy.get_grad`:
`for yh, y in zip(guesses, truths): d_scores.append(self.cc.get_grad(yh, y))`. -/
def gradEach (cc : CategoricalCrossentropy) :
    List (Floats2d × Truths) → Except PyError (List Floats2d)
  | [] => .ok []
  | (yh, y) :: rest =>
    match cc.get_grad yh y none with
    | .error e => .error e
    | .ok d => (gradEach cc rest).map (fun ds => d :: ds)

/-- The per-step loss loop of `SequenceCategoricalCrossentropy.get_loss`. -/
def lossEach (cc : CategoricalCrossentropy) :
    List (Floats2d × Truths) → Except PyError (List ℚ)
  | [] => .ok []
  | (yh, y) :: rest =>
    match cc.get_loss yh y none with
    | .error e => .error e
    | .ok l => (lossEach cc rest).map (fun ls => l :: ls)

/-- `SequenceCategoricalCrossentropy.get_grad`: checks the two lists have
the same length, then runs the inner kernel on each zipped pair. -/
def SequenceCategoricalCrossentropy.get_grad (self : SequenceCategoricalCrossentropy)
    (guesses : List Floats2d) (truths : List Truths) :
    Except PyError (List Floats2d) :=
  if guesses.length ≠ truths.length then .error (.valueError seqLenMsg)
  else gradEach self.cc (guesses.zip truths)

/-- `SequenceCategoricalCrossentropy.get_loss`: runs the inner kernel on
each zipped pair.  Note: the source has no length check here; `zip`
truncates to the shorter list. -/
def SequenceCategoricalCrossentropy.get_loss (self : SequenceCategoricalCrossentropy)
    (guesses : List Floats2d) (truths : List Truths) :
    Except PyError (List ℚ) :=
  lossEach self.cc (guesses.zip truths)

/-- `SequenceCategoricalCrossentropy.__call__`. -/
def SequenceCategoricalCrossentropy.call (self : SequenceCategoricalCrossentropy)
    (guesses : List Floats2d) (truths : List Truths) :
    Except PyError (List Floats2d × List ℚ) :=
  match self.get_grad guesses truths with
  | .error e => .error e
  | .ok ds =>
    match self.get_loss guesses truths with
    | .error e => .error e
    | .ok ls => .ok (ds, ls)

/-- `L2Distance.__init__`. -/
structure L2Distance where
  normalize : Bool
  deriving DecidableEq, Repr

/-- `L2Distance.get_grad`. -/
def L2Distance.get_grad (self : L2Distance) (guesses truths : Floats2d) :
    Except PyError Floats2d :=
  if shape2 guesses ≠ shape2 truths then .error (.valueError l2ShapeMsg)
  else .ok (applyNormalize self.normalize guesses.length (matSub guesses truths))

/-- `L2Distance.get_loss`: checks shapes, computes the gradient and sums its
squares (`(d_truth ** 2).sum()`). -/
def L2Distance.get_loss (self : L2Distance) (guesses truths : Floats2d) :
    Except PyError ℚ :=
  if shape2 guesses ≠ shape2 truths then .error (.valueError l2ShapeMsg)
  else (self.get_grad guesses truths).map sumSq

/-- `L2Distance.__call__`. -/
def L2Distance.call (self : L2Distance) (guesses truths : Floats2d) :
    Except PyError (Floats2d × ℚ) :=
  match self.get_grad guesses truths with
  | .error e => .error e
  | .ok d =>
    match self.get_loss guesses truths with
    | .error e => .error e
    | .ok l => .ok (d, l)

/-- Decidable equality for `Except` results, so concrete runs of the kernels
can be checked by `decide`. -/
instance {ε α : Type} [DecidableEq ε] [DecidableEq α] : DecidableEq (Except ε α) := fun a b =>
  match a, b with
  | .error e, .error f => decidable_of_iff (e = f) (by simp)
  | .ok x, .ok y => decidable_of_iff (x = y) (by simp)
  | .error _, .ok _ => isFalse (by simp)
  | .ok _, .error _ => isFalse (by simp)

/-- An all-ones float tensor of the same shape as `m` (a mask marking every
position as excluded). -/
def onesLike (m : Floats2d) : Floats2d := m.map (fun r => r.map (fun _ => (1 : ℚ)))

/-- An all-zero float tensor of the same shape as `m`. -/
def zerosLike (m : Floats2d) : Floats2d := m.map (fun r => r.map (fun _ => (0 : ℚ)))

/-- A dense 2-d float tensor over the reals, for the cosine kernel (its
row norms need `Real.sqrt`, so this kernel is modelled over `ℝ`). -/
abbrev Floats2dR := List (List ℝ)

/-- numpy shape of a real 2-d array. -/
def shape2R (m : Floats2dR) : Nat × Nat := (m.length, (m.headD []).length)

noncomputable section
open scoped Classical

/-- The stabilizing constant `1e-8` the cosine kernel adds elementwise
to avoid zero vectors. -/
def epsR : ℝ := 1 / 100000000

/-- `arr + 1e-8` on one row. -/
def stabRow (r : List ℝ) : List ℝ := r.map (fun x => x + epsR)

/-- Sum of squares of a row. -/
def sumSqR (r : List ℝ) : ℝ := (r.map (fun x => x * x)).sum

/-- `xp.linalg.norm(arr, axis=1)` on one row: the Euclidean norm. -/
def l2norm (r : List ℝ) : ℝ := Real.sqrt (sumSqR r)

/-- `(yh * y).sum(axis=1)` on one row pair: the dot product. -/
def dotR (a b : List ℝ) : ℝ := (List.zipWith (fun x y => x * y) a b).sum

/-- Per-row cosine used by both `get_similarity` and `get_grad`: both
operands are stabilized with `1e-8`, then `(yh * y).sum / (norm_yh * norm_y)`. -/
def cosRow (gr tr : List ℝ) : ℝ :=
  dotR (stabRow gr) (stabRow tr) / (l2norm (stabRow gr) * l2norm (stabRow tr))

/-- `xp.abs(truths).sum(axis=1)` on the raw (pre-stabilization) row: the
zero-row test used by `ignore_zeros`. -/
def rawAbsSum (r : List ℝ) : ℝ := (r.map (fun x => |x|)).sum

/-- `CosineDistance.__init__`. -/
structure CosineDistance where
  normalize : Bool
  ignore_zeros : Bool
  deriving DecidableEq, Repr

/-- `CosineDistance.get_similarity`: checks shapes, stabilizes both tensors
with `1e-8`, and returns the per-row cosine (a (batch, 1) column). -/
def CosineDistance.get_similarity (self : CosineDistance) (guesses truths : Floats2dR) :
    Except PyError (List ℝ) :=
  if shape2R guesses ≠ shape2R truths then .error (.valueError cosShapeMsg)
  else .ok (List.zipWith cosRow guesses truths)

/-- The pre-masking per-row gradient of `CosineDistance.get_grad`:
`d_yh = (y / mul_norms) - (cosine * (yh / norm_yh ** 2))`, elementwise over
the stabilized row pair. -/
def cosRowGrad (gr tr : List ℝ) : List ℝ :=
  let yh := stabRow gr
  let y := stabRow tr
  let mul_norms := l2norm yh * l2norm y
  let cosine := dotR yh y / mul_norms
  List.zipWith (fun yi yhi => yi / mul_norms - cosine * (yhi / (l2norm yh) ^ 2)) y yh

/-- One row of `CosineDistance.get_grad`: the analytic gradient, zeroed if
the raw truth row is a zero vector and `ignore_zeros` is set, divided by
the batch size if `normalize` is set, then negated (`return -d_yh`). -/
def cosGradRow (self : CosineDistance) (n : Nat) (gr tr : List ℝ) : List ℝ :=
  let d := cosRowGrad gr tr
  let d := if self.ignore_zeros = true ∧ rawAbsSum tr = 0 then d.map (fun _ => (0 : ℝ)) else d
  let d := if self.normalize then d.map (fun x => x / (n : ℝ)) else d
  d.map (fun x => -x)

/-- `CosineDistance.get_grad`. -/
def CosineDistance.get_grad (self : CosineDistance) (guesses truths : Floats2dR) :
    Except PyError Floats2dR :=
  if shape2R guesses ≠ shape2R truths then .error (.valueError cosShapeMsg)
  else .ok (List.zipWith (cosGradRow self guesses.length) guesses truths)

/-- One row's contribution to `CosineDistance.get_loss`:
`abs(cosine - 1)`, zeroed for a raw-zero truth row under `ignore_zeros`,
divided by the batch size under `normalize`. -/
def cosRowLoss (self : CosineDistance) (n : Nat) (gr tr : List ℝ) : ℝ :=
  let li := |cosRow gr tr - 1|
  let li := if self.ignore_zeros = true ∧ rawAbsSum tr = 0 then (0 : ℝ) else li
  if self.normalize then li / (n : ℝ) else li

/-- `CosineDistance.get_loss`: the sum (`losses.sum()`) of the per-row
terms. -/
def CosineDistance.get_loss (self : CosineDistance) (guesses truths : Floats2dR) :
    Except PyError ℝ :=
  if shape2R guesses ≠ shape2R truths then .error (.valueError cosShapeMsg)
  else .ok ((List.zipWith (cosRowLoss self guesses.length) guesses truths).sum)

/-- `CosineDistance.__call__`. -/
def CosineDistance.call (self : CosineDistance) (guesses truths : Floats2dR) :
    Except PyError (Floats2dR × ℝ) :=
  match self.get_grad guesses truths with
  | .error e => .error e
  | .ok d =>
    match self.get_loss guesses truths with
    | .error e => .error e
    | .ok l => .ok (d, l)

/-- Sum of the absolute values of all elements of a real tensor. -/
def sumAbsR (m : Floats2dR) : ℝ := (m.map (fun r => (r.map (fun x => |x|)).sum)).sum

/-- State-passing form of `CosineDistance.get_similarity`: the method body
assigns no attribute of `self` (verified against the source), so the
kernel comes back unchanged next to the result. -/
def CosineDistance.get_similarity_st (self : CosineDistance) (guesses truths : Floats2dR) :
    Except PyError (List ℝ) × CosineDistance :=
  (self.get_similarity guesses truths, self)

/-- State-passing form of `CosineDistance.get_grad` (no attribute of `self`
is assigned by the method body). -/
def CosineDistance.get_grad_st (self : CosineDistance) (guesses truths : Floats2dR) :
    Except PyError Floats2dR × CosineDistance :=
  (self.get_grad guesses truths, self)

/-- State-passing form of `CosineDistance.get_loss`. -/
def CosineDistance.get_loss_st (self : CosineDistance) (guesses truths : Floats2dR) :
    Except PyError ℝ × CosineDistance :=
  (self.get_loss guesses truths, self)

/-- State-passing form of `CosineDistance.__call__`. -/
def CosineDistance.call_st (self : CosineDistance) (guesses truths : Floats2dR) :
    Except PyError (Floats2dR × ℝ) × CosineDistance :=
  (self.call guesses truths, self)

end

/-- State-passing form of `CategoricalCrossentropy.get_grad`: the method
body assigns no attribute of `self` (verified against the source), so the
kernel comes back unchanged next to the result. -/
def CategoricalCrossentropy.get_grad_st (self : CategoricalCrossentropy)
    (guesses : Floats2d) (truths : Truths) (missing : Option Missing) :
    Except PyError Floats2d × CategoricalCrossentropy :=
  (self.get_grad guesses truths missing, self)

/-- State-passing form of `CategoricalCrossentropy.get_loss`. -/
def CategoricalCrossentropy.get_loss_st (self : CategoricalCrossentropy)
    (guesses : Floats2d) (truths : Truths) (missing : Option Missing) :
    Except PyError ℚ × CategoricalCrossentropy :=
  (self.get_loss guesses truths missing, self)

/-- State-passing form of `CategoricalCrossentropy.__call__`. -/
def CategoricalCrossentropy.call_st (self : CategoricalCrossentropy)
    (guesses : Floats2d) (truths : Truths) (missing : Option Missing) :
    Except PyError (Floats2d × ℚ) × CategoricalCrossentropy :=
  (self.call guesses truths missing, self)

/-- State-passing form of `SequenceCategoricalCrossentropy.get_grad`. -/
def SequenceCategoricalCrossentropy.get_grad_st (self : SequenceCategoricalCrossentropy)
    (guesses : List Floats2d) (truths : List Truths) :
    Except PyError (List Floats2d) × SequenceCategoricalCrossentropy :=
  (self.get_grad guesses truths, self)

/-- State-passing form of `SequenceCategoricalCrossentropy.get_loss`. -/
def SequenceCategoricalCrossentropy.get_loss_st (self : SequenceCategoricalCrossentropy)
    (guesses : List Floats2d) (truths : List Truths) :
    Except PyError (List ℚ) × SequenceCategoricalCrossentropy :=
  (self.get_loss guesses truths, self)

/-- State-passing form of `SequenceCategoricalCrossentropy.__call__`. -/
def SequenceCategoricalCrossentropy.call_st (self : SequenceCategoricalCrossentropy)
    (guesses : List Floats2d) (truths : List Truths) :
    Except PyError (List Floats2d × List ℚ) × SequenceCategoricalCrossentropy :=
  (self.call guesses truths, self)

/-- State-passing form of `L2Distance.get_grad`. -/
def L2Distance.get_grad_st (self : L2Distance) (guesses truths : Floats2d) :
    Except PyError Floats2d × L2Distance :=
  (self.get_grad guesses truths, self)

/-- State-passing form of `L2Distance.get_loss`. -/
def L2Distance.get_loss_st (self : L2Distance) (guesses truths : Floats2d) :
    Except PyError ℚ × L2Distance :=
  (self.get_loss guesses truths, self)

/-- State-passing form of `L2Distance.__call__`. -/
def L2Distance.call_st (self : L2Distance) (guesses truths : Floats2d) :
    Except PyError (Floats2d × ℚ) × L2Distance :=
  (self.call guesses truths, self)

/-- The range check of `CategoricalCrossentropy.get_grad` can never fire:
`arr.any()` is a bool, so as an int it is 0 or 1, and neither `> 1` nor
`< 0` holds. -/
theorem rangeCheckFires_eq_false (m : Floats2d) : rangeCheckFires m = false := by
  cases h : npAny m <;> simp [rangeCheckFires, pyBoolInt, h]

/-- `zip` truncates both lists to the shorter length. -/
theorem zip_eq_zip_take {α β : Type} (gl : List α) (tl : List β) :
    gl.zip tl = (gl.take tl.length).zip (tl.take gl.length) := by
  induction gl generalizing tl with
  | nil => simp
  | cons x xs ih =>
    cases tl with
    | nil => simp
    | cons y ys =>
      simp only [List.length_cons, List.take_succ_cons, List.zip_cons_cons]
      exact congrArg (List.cons (x, y)) (ih ys)

/-- The name-to-index table built from `names` has no entry for a string
that is not one of the names (auxiliary, generalized over the enumeration
start index). -/
theorem enumFrom_table_filter_nil (ns : List String) (k : Nat) (s : String) (h : s ∉ ns) :
    ((ns.enumFrom k).map (fun p => (p.2, p.1))).filter (fun p => p.1 == s) = [] := by
  induction ns generalizing k with
  | nil => rfl
  | cons a as ih =>
    have ha : ¬ a = s := fun hh => h (hh ▸ List.mem_cons_self a as)
    have has : s ∉ as := fun hm => h (List.mem_cons_of_mem a hm)
    simp only [List.enumFrom, List.map_cons, List.filter_cons]
    rw [if_neg (by simpa using ha)]
    exact ih (k + 1) has

/-- Subscripting the name table with a string absent from `names` raises
`KeyError` (the lookup finds nothing). -/
theorem dictLookup_not_mem (ns : List String) (s : String) (h : s ∉ ns) :
    dictLookup (nameToITable ns) s = none := by
  unfold dictLookup nameToITable List.enum
  rw [enumFrom_table_filter_nil ns 0 s h]
  rfl

/-- A row of the difference multiplied elementwise by an all-zero row of
the same underlying length is all-zero. -/
theorem zipWith_mul_map_zero (a b : List ℚ) (h : a.length = b.length) :
    List.zipWith (fun x y => x * y) (List.zipWith (fun x y => x - y) a b)
      (a.map (fun _ => (0 : ℚ))) = a.map (fun _ => (0 : ℚ)) := by
  induction a generalizing b with
  | nil => simp
  | cons x xs ih =>
    cases b with
    | nil => simp at h
    | cons y ys =>
      simp only [List.zipWith_cons_cons, List.map_cons, mul_zero]
      rw [ih ys (by simpa using h)]

/-- Rectangular same-shape tensors have rowwise equal lengths. -/
theorem rect_rows_eq (g t : Floats2d) (hg : Rect g) (ht : Rect t)
    (hs : shape2 g = shape2 t) :
    List.Forall₂ (fun r s => r.length = s.length) g t := by
  rw [List.forall₂_iff_zip]
  refine ⟨congrArg Prod.fst hs, ?_⟩
  intro a b hab
  obtain ⟨hag, hbt⟩ := List.of_mem_zip hab
  rw [hg a hag, ht b hbt]
  exact congrArg Prod.snd hs

/-- Masking the difference with an all-zero `1 - mask` factor zeroes it. -/
theorem hadamard_matSub_zerosLike (g t : Floats2d)
    (hf : List.Forall₂ (fun r s => r.length = s.length) g t) :
    hadamard (matSub g t) (zerosLike g) = zerosLike g := by
  induction hf with
  | nil => rfl
  | @cons r s g' t' hrow _hrest ih =>
    simp only [hadamard, matSub, zerosLike, List.map_cons, List.zipWith_cons_cons] at ih ⊢
    rw [zipWith_mul_map_zero r s hrow, ih]

/-- `1 - mask` for the all-ones mask is the all-zero tensor. -/
theorem oneMinus_onesLike (g : Floats2d) : oneMinus (onesLike g) = zerosLike g := by
  simp [oneMinus, onesLike, zerosLike, List.map_map, Function.comp]

/-- Normalization leaves the all-zero tensor all-zero. -/
theorem applyNormalize_zerosLike (b : Bool) (n : Nat) (g : Floats2d) :
    applyNormalize b n (zerosLike g) = zerosLike g := by
  cases b <;> simp [applyNormalize, divByNat, zerosLike, List.map_map, Function.comp]

/-- Sum of a map whose values are all zero. -/
theorem sum_map_eq_zero {α M : Type} [AddCommMonoid M] (r : List α) (f : α → M)
    (hf : ∀ x, f x = 0) : (r.map f).sum = 0 := by
  induction r with
  | nil => rfl
  | cons a as ih => simp [hf, ih]

/-- The sum of squares of the all-zero tensor is 0. -/
theorem sumSq_zerosLike (g : Floats2d) : sumSq (zerosLike g) = 0 := by
  unfold sumSq zerosLike
  rw [List.map_map]
  refine sum_map_eq_zero g _ (fun r => ?_)
  simp only [Function.comp_apply, List.map_map]
  exact sum_map_eq_zero r _ (fun x => by norm_num)

/-- C1 (proved part): for `CategoricalCrossentropy` (any configuration, any
truths form, any missing mask) and for `L2Distance`, `get_loss` is exactly
the sum of squares of the tensor `get_grad` returns under the same
configuration (and the two fail on exactly the same inputs). -/
theorem C1_loss_is_sum_sq_grad (cc : CategoricalCrossentropy) (l2 : L2Distance)
    (g : Floats2d) (tr : Truths) (miss : Option Missing) (g2 t2 : Floats2d) :
    cc.get_loss g tr miss = (cc.get_grad g tr miss).map sumSq ∧
    l2.get_loss g2 t2 = (l2.get_grad g2 t2).map sumSq := by
  constructor
  · rfl
  · by_cases h : shape2 g2 = shape2 t2
    · simp [L2Distance.get_loss, L2Distance.get_grad, h]
    · simp [L2Distance.get_loss, L2Distance.get_grad, h, Except.map]

/-- C2: the [0,1] range check in `CategoricalCrossentropy.get_grad` is dead
code: `guesses.any()` is a bool, never `> 1` nor `< 0`, so out-of-range
guesses (here 2.0) and out-of-range truths (here -1.0) produce a gradient
instead of a RangeError. -/
theorem C2_range_check_dead (g : Floats2d) :
    rangeCheckFires g = false ∧
    CategoricalCrossentropy.get_grad ⟨true, none⟩ [[2]] (.dense [[1]]) none = .ok [[1]] ∧
    CategoricalCrossentropy.get_grad ⟨true, none⟩ [[0]] (.dense [[-1]]) none = .ok [[1]] := by
  refine ⟨rangeCheckFires_eq_false g, ?_, ?_⟩ <;>
    norm_num [CategoricalCrossentropy.get_grad, CategoricalCrossentropy.convert_truths,
      shape2, rangeCheckFires, npAny, pyBoolInt, matSub, applyNormalize, divByNat]

/-- C3 (counterexample): with one guess tensor and zero truths the lengths
mismatch, yet `SequenceCategoricalCrossentropy.get_loss` returns an empty
(truncated) result instead of raising a ShapeError. -/
theorem C3_counterexample :
    SequenceCategoricalCrossentropy.get_loss ⟨⟨true, none⟩⟩ [[[(0 : ℚ)]]] [] = .ok [] ∧
    ([[[(0 : ℚ)]]] : List Floats2d).length ≠ ([] : List Truths).length :=
  ⟨rfl, by decide⟩

/-- C3 (amended): on mismatched-length inputs `get_grad` raises the
length-mismatch ValueError before any per-step work, but `get_loss` performs
no length check: it zips the inputs down to the shorter length and behaves
exactly as on the truncated lists. -/
theorem C3_seq_length_check (scc : SequenceCategoricalCrossentropy)
    (gl : List Floats2d) (tl : List Truths) (h : gl.length ≠ tl.length) :
    scc.get_grad gl tl = .error (.valueError seqLenMsg) ∧
    scc.get_loss gl tl = scc.get_loss (gl.take tl.length) (tl.take gl.length) := by
  constructor
  · simp [SequenceCategoricalCrossentropy.get_grad, h]
  · unfold SequenceCategoricalCrossentropy.get_loss
    rw [zip_eq_zip_take gl tl]

/-- C3 (witness): the amended statement at the concrete mismatched input. -/
theorem C3_witness :
    SequenceCategoricalCrossentropy.get_grad ⟨⟨true, none⟩⟩ [[[(0 : ℚ)]]] []
      = .error (.valueError seqLenMsg) ∧
    SequenceCategoricalCrossentropy.get_loss ⟨⟨true, none⟩⟩ [[[(0 : ℚ)]]] []
      = SequenceCategoricalCrossentropy.get_loss ⟨⟨true, none⟩⟩ [] [] := by
  have h := C3_seq_length_check ⟨⟨true, none⟩⟩ [[[(0 : ℚ)]]] [] (by decide)
  simpa using h

/-- C4 (counterexample): with a name table `["cat"]`, the absent label
"dog" makes `convert_truths` raise `KeyError "dog"` — not a `ValueError`
— while the missing-table case raises the `ValueError` with the
missing-names message: the two failures are different exception classes. -/
theorem C4_counterexample :
    CategoricalCrossentropy.convert_truths ⟨true, some ["cat"]⟩
      (.pylist [.str "dog"]) [[(1 : ℚ)]] = .error (.keyError "dog") ∧
    isValueError (PyError.keyError "dog") = false ∧
    CategoricalCrossentropy.convert_truths ⟨true, none⟩
      (.pylist [.str "dog"]) [[(1 : ℚ)]] = .error (.valueError noNamesMsg) ∧
    isValueError (PyError.valueError noNamesMsg) = true := by
  refine ⟨by decide, rfl, by decide, rfl⟩

/-- C4 (amended): non-empty string truths without a name table raise the
missing-names ValueError before any numeric work; with a table, a label
absent from it raises a KeyError (a different exception class), also
before any numeric work. -/
theorem C4_string_truth_errors (cc : CategoricalCrossentropy) (s : String)
    (rest : List PyItem) (g : Floats2d) :
    (cc.names = none →
      cc.convert_truths (.pylist (.str s :: rest)) g = .error (.valueError noNamesMsg)) ∧
    (∀ ns, cc.names = some ns → s ∉ ns →
      cc.convert_truths (.pylist (.str s :: rest)) g = .error (.keyError s)) := by
  constructor
  · intro h
    simp [CategoricalCrossentropy.convert_truths, isStrHead, h]
  · intro ns hn hs
    simp [CategoricalCrossentropy.convert_truths, isStrHead, hn, resolveNames,
      dictLookup_not_mem ns s hs]

/-- C4 (witness): both error branches at concrete inputs. -/
theorem C4_witness :
    CategoricalCrossentropy.convert_truths ⟨true, none⟩
      (.pylist [.str "dog"]) [[(1 : ℚ)]] = .error (.valueError noNamesMsg) ∧
    CategoricalCrossentropy.convert_truths ⟨true, some ["cat"]⟩
      (.pylist [.str "dog"]) [[(1 : ℚ)]] = .error (.keyError "dog") :=
  ⟨(C4_string_truth_errors ⟨true, none⟩ "dog" [] [[(1 : ℚ)]]).1 rfl,
   (C4_string_truth_errors ⟨true, some ["cat"]⟩ "dog" [] [[(1 : ℚ)]]).2
     ["cat"] rfl (by decide)⟩

/-- C5: a float `missing` mask of all ones (every position excluded) makes
`get_grad` return the all-zero tensor and `get_loss` return 0, whatever the
guesses and converted truths are; and for any float mask the difference is
multiplied by `1 - mask` before the division by the batch size. -/
theorem C5_full_mask_zeroes (cc : CategoricalCrossentropy) (g target mk : Floats2d)
    (tr : Truths)
    (hconv : cc.convert_truths tr g = .ok target)
    (hshape : shape2 g = shape2 target)
    (hg : Rect g) (ht : Rect target) :
    cc.get_grad g tr (some (.floats (onesLike g))) = .ok (zerosLike g) ∧
    cc.get_loss g tr (some (.floats (onesLike g))) = .ok 0 ∧
    cc.get_grad g tr (some (.floats mk)) =
      .ok (applyNormalize cc.normalize g.length
        (hadamard (matSub g target) (oneMinus (_make_mask (.floats mk) (shape2 g))))) := by
  have hgen : ∀ m : Floats2d, cc.get_grad g tr (some (.floats m)) =
      .ok (applyNormalize cc.normalize g.length
        (hadamard (matSub g target) (oneMinus (_make_mask (.floats m) (shape2 g))))) := by
    intro m
    simp [CategoricalCrossentropy.get_grad, hconv, hshape, rangeCheckFires_eq_false]
  have hzero : cc.get_grad g tr (some (.floats (onesLike g))) = .ok (zerosLike g) := by
    rw [hgen (onesLike g)]
    show Except.ok (applyNormalize cc.normalize g.length
      (hadamard (matSub g target) (oneMinus (onesLike g)))) = _
    rw [oneMinus_onesLike,
      hadamard_matSub_zerosLike g target (rect_rows_eq g target hg ht hshape),
      applyNormalize_zerosLike]
  refine ⟨hzero, ?_, hgen mk⟩
  unfold CategoricalCrossentropy.get_loss
  rw [hzero]
  show Except.ok (_get_loss_from_grad (zerosLike g)) = _
  unfold _get_loss_from_grad
  rw [sumSq_zerosLike]

/-- C5 (witness): with guesses [[1/2]], dense truths [[1]], and the
all-ones float mask, the gradient is [[0]] and the loss is 0. -/
theorem C5_witness :
    CategoricalCrossentropy.get_grad ⟨true, none⟩ [[(1 : ℚ)/2]] (.dense [[1]])
      (some (.floats (onesLike [[(1 : ℚ)/2]]))) = .ok (zerosLike [[(1 : ℚ)/2]]) ∧
    CategoricalCrossentropy.get_loss ⟨true, none⟩ [[(1 : ℚ)/2]] (.dense [[1]])
      (some (.floats (onesLike [[(1 : ℚ)/2]]))) = .ok 0 :=
  ⟨(C5_full_mask_zeroes ⟨true, none⟩ [[(1 : ℚ)/2]] [[1]] [[1]] (.dense [[1]])
      rfl rfl (by decide) (by decide)).1,
   (C5_full_mask_zeroes ⟨true, none⟩ [[(1 : ℚ)/2]] [[1]] [[1]] (.dense [[1]])
      rfl rfl (by decide) (by decide)).2.1⟩

/-- C6: converting a 1-d integer label array one-hot expands it with width
`n_classes = guesses.shape[-1]` (1.0 at the label position, 0.0 elsewhere);
a dense tensor of matching rank passes through unchanged, so conversion is
idempotent: converting an already-converted result changes nothing. -/
theorem C6_truth_conversion (cc : CategoricalCrossentropy) (l : List Nat)
    (g m r : Floats2d) (tr : Truths) (i j : Nat)
    (hj : j < nCols g) (hr : cc.convert_truths tr g = .ok r) :
    cc.convert_truths (.ints1d l) g = .ok (to_categorical l (nCols g)) ∧
    (oneHotRow (nCols g) i)[j]? = some (if j = i then (1 : ℚ) else 0) ∧
    cc.convert_truths (.dense m) g = .ok m ∧
    cc.convert_truths (.dense r) g = .ok r := by
  refine ⟨rfl, ?_, rfl, rfl⟩
  unfold oneHotRow
  rw [List.getElem?_map, List.getElem?_range hj]
  rfl

/-- C6 (witness): label 1 with two classes converts to the one-hot row
[0, 1]; converting the result again returns it unchanged. -/
theorem C6_witness :
    CategoricalCrossentropy.convert_truths ⟨true, none⟩ (.ints1d [1]) [[(0 : ℚ), 0]]
      = .ok (to_categorical [1] (nCols [[(0 : ℚ), 0]])) ∧
    (oneHotRow (nCols [[(0 : ℚ), 0]]) 1)[0]? = some (if 0 = 1 then (1 : ℚ) else 0) ∧
    CategoricalCrossentropy.convert_truths ⟨true, none⟩ (.dense [[(0 : ℚ), 1]]) [[(0 : ℚ), 0]]
      = .ok [[(0 : ℚ), 1]] ∧
    CategoricalCrossentropy.convert_truths ⟨true, none⟩ (.dense (to_categorical [1] 2)) [[(0 : ℚ), 0]]
      = .ok (to_categorical [1] 2) :=
  C6_truth_conversion ⟨true, none⟩ [1] [[(0 : ℚ), 0]] [[(0 : ℚ), 1]]
    (to_categorical [1] 2) (.ints1d [1]) 1 0 (by decide) rfl

/-- C9: an empty Python list as truths never reaches the string branch
(`len(truths)` is falsy), so even a kernel constructed without names does
not raise the missing-names error: the list is converted as an empty
integer array and one-hot expanded to the empty dense tensor. -/
theorem C9_empty_truths_list (cc : CategoricalCrossentropy) (g : Floats2d) :
    cc.convert_truths (.pylist []) g = .ok (to_categorical [] (nCols g)) ∧
    cc.convert_truths (.pylist []) g = .ok ([] : Floats2d) :=
  ⟨rfl, rfl⟩

/-- C10: `_make_mask` returns a float-dtype mask unchanged, whatever the
`shape` argument is — the shape is consulted only in the index branch — so
a float mask of any shape is passed through as-is. -/
theorem C10_float_mask_passthrough (m : Floats2d) (s1 s2 : Nat × Nat) :
    _make_mask (.floats m) s1 = m ∧
    _make_mask (.floats m) s1 = _make_mask (.floats m) s2 :=
  ⟨rfl, rfl⟩

/-- `zipWith` of a list with itself is a map of the diagonal. -/
theorem zipWith_mul_self (l : List ℝ) :
    List.zipWith (fun x y => x * y) l l = l.map (fun x => x * x) := by
  induction l with
  | nil => rfl
  | cons a as ih => simp [ih]

theorem rawAbsSum_zero_all_zero (l : List ℝ) (h : rawAbsSum l = 0) :
    ∀ x ∈ l, x = 0 := by
  unfold rawAbsSum at h
  induction l with
  | nil => simp
  | cons a as ih =>
    simp only [List.map_cons, List.sum_cons] at h
    have h1 : 0 ≤ |a| := abs_nonneg a
    have h2 : 0 ≤ (as.map (fun x => |x|)).sum :=
      List.sum_nonneg (by
        intro x hx
        obtain ⟨y, _, rfl⟩ := List.mem_map.1 hx
        exact abs_nonneg y)
    have ha : |a| = 0 := by linarith
    have hs : (as.map (fun x => |x|)).sum = 0 := by linarith
    intro x hx
    rcases List.mem_cons.1 hx with rfl | hx2
    · exact abs_eq_zero.1 ha
    · exact ih hs x hx2

theorem sumSqR_nonneg (l : List ℝ) : 0 ≤ sumSqR l := by
  unfold sumSqR
  refine List.sum_nonneg ?_
  intro x hx
  obtain ⟨y, _, rfl⟩ := List.mem_map.1 hx
  exact mul_self_nonneg y

theorem cosRow_self (r : List ℝ) (hS : sumSqR (stabRow r) ≠ 0) : cosRow r r = 1 := by
  unfold cosRow
  have hdot : dotR (stabRow r) (stabRow r) = sumSqR (stabRow r) := by
    unfold dotR sumSqR
    rw [zipWith_mul_self]
  unfold l2norm
  rw [hdot, Real.mul_self_sqrt (sumSqR_nonneg (stabRow r)), div_self hS]



theorem C7_cosine_rows (cd : CosineDistance) (r gr tr : List ℝ) (n : Nat)
    (g t : Floats2dR)
    (hS : sumSqR (stabRow r) ≠ 0)
    (hz : rawAbsSum tr = 0)
    (hshape : shape2R g = shape2R t) :
    cosRow r r = 1 ∧
    cosRowLoss cd n r r = 0 ∧
    (cd.ignore_zeros = true →
      (∀ x ∈ cosGradRow cd n gr tr, x = 0) ∧ cosRowLoss cd n gr tr = 0) ∧
    (cd.ignore_zeros = false →
      (∃ out, cd.get_grad g t = .ok out) ∧
      (∃ ls, cd.get_loss g t = .ok ls) ∧
      (tr ≠ [] → 0 < l2norm (stabRow tr))) := by
  have hc1 := cosRow_self r hS
  refine ⟨hc1, ?_, ?_, ?_⟩
  · simp [cosRowLoss, hc1]
  · intro hig
    constructor
    · intro x hx
      simp only [cosGradRow] at hx
      rw [if_pos (show cd.ignore_zeros = true ∧ rawAbsSum tr = 0 from ⟨hig, hz⟩)] at hx
      by_cases hn : cd.normalize = true
      · rw [if_pos hn] at hx
        simp only [List.map_map, List.mem_map, Function.comp_apply] at hx
        obtain ⟨y, _, rfl⟩ := hx
        simp
      · rw [if_neg hn] at hx
        simp only [List.map_map, List.mem_map, Function.comp_apply] at hx
        obtain ⟨y, _, rfl⟩ := hx
        simp
    · simp only [cosRowLoss]
      rw [if_pos (show cd.ignore_zeros = true ∧ rawAbsSum tr = 0 from ⟨hig, hz⟩)]
      by_cases hn : cd.normalize = true
      · rw [if_pos hn, zero_div]
      · rw [if_neg hn]
  · intro hig
    refine ⟨⟨List.zipWith (cosGradRow cd g.length) g t, ?_⟩,
      ⟨(List.zipWith (cosRowLoss cd g.length) g t).sum, ?_⟩, ?_⟩
    · unfold CosineDistance.get_grad
      rw [if_neg (by simp [hshape])]
    · unfold CosineDistance.get_loss
      rw [if_neg (by simp [hshape])]
    · intro hne
      have hall := rawAbsSum_zero_all_zero tr hz
      obtain ⟨a, rest, rfl⟩ := List.exists_cons_of_ne_nil hne
      have ha : a = 0 := hall a (List.mem_cons_self a rest)
      unfold l2norm
      rw [Real.sqrt_pos]
      unfold sumSqR stabRow
      simp only [List.map_cons, List.sum_cons]
      have hrest : 0 ≤ ((rest.map (fun x => x + epsR)).map (fun x => x * x)).sum := by
        refine List.sum_nonneg ?_
        intro x hx
        obtain ⟨y, _, rfl⟩ := List.mem_map.1 hx
        exact mul_self_nonneg y
      have hhead : 0 < (a + epsR) * (a + epsR) := by
        rw [ha]
        norm_num [epsR]
      linarith

theorem C7_witness :
    cosRow [(1 : ℝ)] [(1 : ℝ)] = 1 ∧
    cosRowLoss ⟨true, false⟩ 1 [(1 : ℝ)] [(1 : ℝ)] = 0 ∧
    ((⟨true, false⟩ : CosineDistance).ignore_zeros = true →
      (∀ x ∈ cosGradRow ⟨true, false⟩ 1 [(1 : ℝ)] [(0 : ℝ)], x = 0) ∧
      cosRowLoss ⟨true, false⟩ 1 [(1 : ℝ)] [(0 : ℝ)] = 0) ∧
    ((⟨true, false⟩ : CosineDistance).ignore_zeros = false →
      (∃ out, CosineDistance.get_grad ⟨true, false⟩ [[(1 : ℝ)]] [[(0 : ℝ)]] = .ok out) ∧
      (∃ ls, CosineDistance.get_loss ⟨true, false⟩ [[(1 : ℝ)]] [[(0 : ℝ)]] = .ok ls) ∧
      (([(0 : ℝ)] : List ℝ) ≠ [] → 0 < l2norm (stabRow [(0 : ℝ)]))) :=
  C7_cosine_rows ⟨true, false⟩ [(1 : ℝ)] [(1 : ℝ)] [(0 : ℝ)] 1 [[(1 : ℝ)]] [[(0 : ℝ)]]
    (by norm_num [sumSqR, stabRow, epsR])
    (by norm_num [rawAbsSum])
    rfl

theorem C1_cosine_counterexample :
    CosineDistance.get_grad ⟨true, false⟩ [[(1 : ℝ)]] [[(-1 : ℝ)]] = .ok [[0]] ∧
    CosineDistance.get_loss ⟨true, false⟩ [[(1 : ℝ)]] [[(-1 : ℝ)]] = .ok 2 ∧
    sumAbsR [[(0 : ℝ)]] = 0 ∧ (2 : ℝ) ≠ 0 := by
  have h1 : l2norm (stabRow [(1 : ℝ)]) = 1 + epsR := by
    unfold l2norm sumSqR stabRow
    simp only [List.map_cons, List.map_nil, List.sum_cons, List.sum_nil, add_zero]
    rw [show ((1 : ℝ) + epsR) * (1 + epsR) = (1 + epsR) ^ 2 by ring,
      Real.sqrt_sq (by norm_num [epsR])]
  have h2 : l2norm (stabRow [(-1 : ℝ)]) = 1 - epsR := by
    unfold l2norm sumSqR stabRow
    simp only [List.map_cons, List.map_nil, List.sum_cons, List.sum_nil, add_zero]
    rw [show ((-1 : ℝ) + epsR) * (-1 + epsR) = (1 - epsR) ^ 2 by ring,
      Real.sqrt_sq (by norm_num [epsR])]
  have hd : dotR (stabRow [(1 : ℝ)]) (stabRow [(-1 : ℝ)]) = (1 + epsR) * (-1 + epsR) := by
    unfold dotR stabRow
    simp
  have hcos : cosRow [(1 : ℝ)] [(-1 : ℝ)] = -1 := by
    unfold cosRow
    rw [h1, h2, hd, show ((1 : ℝ) + epsR) * (-1 + epsR) = -((1 + epsR) * (1 - epsR)) by ring,
      neg_div, div_self (by norm_num [epsR])]
  have hgr : cosRowGrad [(1 : ℝ)] [(-1 : ℝ)] = [0] := by
    simp only [cosRowGrad]
    rw [h1, h2, hd]
    simp only [stabRow, List.map_cons, List.map_nil, List.zipWith_cons_cons, List.zipWith_nil_right]
    norm_num [epsR]
  constructor
  · unfold CosineDistance.get_grad
    rw [if_neg (by simp [shape2R])]
    simp only [List.length_cons, List.length_nil, List.zipWith_cons_cons, List.zipWith_nil_right]
    simp [cosGradRow, hgr]
  refine ⟨?_, by simp [sumAbsR], by norm_num⟩
  unfold CosineDistance.get_loss
  rw [if_neg (by simp [shape2R])]
  simp only [List.length_cons, List.length_nil, List.zipWith_cons_cons, List.zipWith_nil_right]
  simp [cosRowLoss, hcos]
  norm_num

/-- C8: every method of every kernel, in state-passing form, returns the
kernel unchanged: the construction-time configuration (normalize flag,
ignore_zeros flag, names list, derived name-to-index table) is never
mutated, so a repeated call with the same inputs returns the same result. -/
theorem C8_kernels_stateless
    (cc : CategoricalCrossentropy) (scc : SequenceCategoricalCrossentropy)
    (l2 : L2Distance) (cd : CosineDistance)
    (g : Floats2d) (tr : Truths) (miss : Option Missing)
    (g2 t2 : Floats2d) (gl : List Floats2d) (tl : List Truths)
    (gr tr2 : Floats2dR) :
    (cc.get_grad_st g tr miss).2 = cc ∧
    (cc.get_loss_st g tr miss).2 = cc ∧
    (cc.call_st g tr miss).2 = cc ∧
    (scc.get_grad_st gl tl).2 = scc ∧
    (scc.get_loss_st gl tl).2 = scc ∧
    (scc.call_st gl tl).2 = scc ∧
    (l2.get_grad_st g2 t2).2 = l2 ∧
    (l2.get_loss_st g2 t2).2 = l2 ∧
    (l2.call_st g2 t2).2 = l2 ∧
    (cd.get_similarity_st gr tr2).2 = cd ∧
    (cd.get_grad_st gr tr2).2 = cd ∧
    (cd.get_loss_st gr tr2).2 = cd ∧
    (cd.call_st gr tr2).2 = cd ∧
    ((cc.get_grad_st g tr miss).2).normalize = cc.normalize ∧
    ((cc.get_grad_st g tr miss).2).names = cc.names ∧
    ((cc.get_grad_st g tr miss).2)._name_to_i = cc._name_to_i ∧
    ((cd.get_grad_st gr tr2).2).ignore_zeros = cd.ignore_zeros ∧
    ((cc.get_grad_st g tr miss).2).get_grad g tr miss = cc.get_grad g tr miss :=
  ⟨rfl, rfl, rfl, rfl, rfl, rfl, rfl, rfl, rfl, rfl, rfl, rfl, rfl, rfl, rfl, rfl, rfl, rfl⟩
